import Mathlib

/-!
Verification of the Student Performance Classification app (`src/app.py`),
a Streamlit front-end over a pre-trained classifier artifact.

The embedding models:
- values carried by widgets and dataframe cells (`Value`);
- the Python `dict.get` lookup used for the class-to-label mapping;
- the ten input widgets with the exact bounds, defaults and steps of the
  source, together with the set of values each control can produce;
- the per-render-cycle behavior of the script (`runScript`): which page
  branch executes, which `model.predict` calls happen, what is displayed;
- the widget session store (values keyed by widget label) used to state
  the navigation frame property;
- the startup model load from the fixed hard-coded path.

Continuous quantities are embedded as rationals (`ℚ`), the decimal
literals of the source being exact in `ℚ`.
-/

namespace StudentPerf

/-- A scalar value as it appears in a widget or a dataframe cell:
a float, an int, or a string (mirroring the Python value kinds). -/
inductive Value where
  | q (x : ℚ)
  | z (n : ℤ)
  | s (str : String)
  deriving DecidableEq, Repr

/-- The literal `class_mapping` dict of `app.py` (lines 239-243), as an
association list in insertion order. -/
def class_mapping : List (ℤ × String) :=
  [(0, "❌ At Risk"), (1, "⚠️ Average"), (2, "✅ High Performer")]

/-- Python `d.get(k, default)` on an int-keyed dict embedded as an
association list. -/
def dictGet (d : List (ℤ × String)) (k : ℤ) (default : String) : String :=
  match d.find? (fun p => p.1 == k) with
  | some p => p.2
  | none => default

/-- `class_mapping.get(prediction, "Unknown")` from `app.py` line 245. -/
def predictionLabel (c : ℤ) : String :=
  dictGet class_mapping c "Unknown"

/-- A float slider as configured in the source (`st.slider` with float
arguments): label, minimum, maximum, initial value, step. -/
structure SliderQ where
  label : String
  mn : ℚ
  mx : ℚ
  default : ℚ
  step : ℚ
  deriving DecidableEq, Repr

/-- The value of a float slider at discrete position `k`: the control can
only sit at `mn + k * step`. -/
def SliderQ.valueAt (w : SliderQ) (k : ℕ) : ℚ := w.mn + k * w.step

/-- The values a float slider can produce: the grid points counted in
`step` increments from `mn`, up to `mx`. -/
def SliderQ.Producible (w : SliderQ) (v : ℚ) : Prop :=
  (∃ k : ℕ, v = w.valueAt k) ∧ v ≤ w.mx

/-- An integer slider as configured in the source (`st.slider` with int
arguments and the implicit step of 1). -/
structure SliderZ where
  label : String
  mn : ℤ
  mx : ℤ
  default : ℤ
  deriving DecidableEq, Repr

/-- The values an integer slider can produce: unit increments from `mn`,
up to `mx`. -/
def SliderZ.Producible (w : SliderZ) (v : ℤ) : Prop :=
  (∃ k : ℕ, v = w.mn + k) ∧ v ≤ w.mx

/-- A numeric text input as configured in the source (`st.number_input`):
label, minimum, maximum, initial value, stepper increment. -/
structure NumberInput where
  label : String
  mn : ℚ
  mx : ℚ
  default : ℚ
  step : ℚ
  deriving DecidableEq, Repr

/-- `st.number_input` clamps any entered value to `[mn, mx]`. -/
def NumberInput.clamp (w : NumberInput) (typed : ℚ) : ℚ :=
  max w.mn (min typed w.mx)

/-- The values a number input can produce: the clamped image of any entry. -/
def NumberInput.Producible (w : NumberInput) (v : ℚ) : Prop :=
  ∃ t : ℚ, v = w.clamp t

/-- A drop-down selector as configured in the source (`st.selectbox`). -/
structure SelectBox where
  label : String
  options : List String
  deriving DecidableEq, Repr

/-- `st.selectbox` preselects the first option. -/
def SelectBox.defaultChoice (w : SelectBox) : Option String := w.options.head?

/-- The values a selectbox can produce: exactly its options. -/
def SelectBox.Producible (w : SelectBox) (v : String) : Prop := v ∈ w.options

/-- "Sleep Hours per Day" slider, `app.py` lines 152-158. -/
def sleep_hours_w : SliderQ := ⟨"Sleep Hours per Day", 4.0, 12.0, 7.0, 0.1⟩

/-- "Exercise Frequency (per week)" slider, `app.py` lines 160-165. -/
def exercise_frequency_w : SliderZ := ⟨"Exercise Frequency (per week)", 0, 7, 3⟩

/-- "Stress Level" slider, `app.py` lines 167-173. -/
def stress_level_w : SliderQ := ⟨"Stress Level", 1.0, 10.0, 5.0, 0.1⟩

/-- "Daily Screen Time (hours)" slider, `app.py` lines 175-181. -/
def screen_time_w : SliderQ := ⟨"Daily Screen Time (hours)", 0.3, 21.0, 5.0, 0.1⟩

/-- "Motivation Level" slider, `app.py` lines 183-188. -/
def motivation_level_w : SliderZ := ⟨"Motivation Level", 1, 10, 6⟩

/-- "Exam Anxiety Score" slider, `app.py` lines 191-197. -/
def exam_anxiety_score_w : SliderQ := ⟨"Exam Anxiety Score", 5.0, 10.0, 7.0, 0.5⟩

/-- "Study Efficiency" number input, `app.py` lines 199-205. -/
def study_efficiency_w : NumberInput := ⟨"Study Efficiency", 0.0, 5.75, 2.0, 0.05⟩

/-- "Screen Time Penalty" number input, `app.py` lines 207-213. -/
def screen_time_penalty_w : NumberInput := ⟨"Screen Time Penalty", 0.0, 90.0, 10.0, 1.0⟩

/-- "Study Environment" selectbox, `app.py` lines 215-218. -/
def study_environment_w : SelectBox :=
  ⟨"Study Environment", ["Quiet Room", "Library", "Co-Learning Group", "Dorm", "Cafe"]⟩

/-- "Access to Tutoring" selectbox, `app.py` lines 220-223. -/
def access_to_tutoring_w : SelectBox := ⟨"Access to Tutoring", ["Yes", "No"]⟩

/-- The ten current Prediction-view control values, one field per widget. -/
structure PredictionInputs where
  sleep_hours : ℚ
  exercise_frequency : ℤ
  stress_level : ℚ
  screen_time : ℚ
  motivation_level : ℤ
  exam_anxiety_score : ℚ
  study_efficiency : ℚ
  screen_time_penalty : ℚ
  study_environment : String
  access_to_tutoring : String
  deriving DecidableEq, Repr

/-- Each control sits at one of its producible positions. -/
def ProducibleInputs (i : PredictionInputs) : Prop :=
  sleep_hours_w.Producible i.sleep_hours ∧
  exercise_frequency_w.Producible i.exercise_frequency ∧
  stress_level_w.Producible i.stress_level ∧
  screen_time_w.Producible i.screen_time ∧
  motivation_level_w.Producible i.motivation_level ∧
  exam_anxiety_score_w.Producible i.exam_anxiety_score ∧
  study_efficiency_w.Producible i.study_efficiency ∧
  screen_time_penalty_w.Producible i.screen_time_penalty ∧
  study_environment_w.Producible i.study_environment ∧
  access_to_tutoring_w.Producible i.access_to_tutoring

/-- The declared domains of the ten attributes, written from the spec's
section 3 table (the refinement side to compare the widget model against). -/
def InDomainInputs (i : PredictionInputs) : Prop :=
  ((4.0 : ℚ) ≤ i.sleep_hours ∧ i.sleep_hours ≤ (12.0 : ℚ)) ∧
  ((0 : ℤ) ≤ i.exercise_frequency ∧ i.exercise_frequency ≤ (7 : ℤ)) ∧
  ((1.0 : ℚ) ≤ i.stress_level ∧ i.stress_level ≤ (10.0 : ℚ)) ∧
  ((0.3 : ℚ) ≤ i.screen_time ∧ i.screen_time ≤ (21.0 : ℚ)) ∧
  ((1 : ℤ) ≤ i.motivation_level ∧ i.motivation_level ≤ (10 : ℤ)) ∧
  ((5.0 : ℚ) ≤ i.exam_anxiety_score ∧ i.exam_anxiety_score ≤ (10.0 : ℚ) ∧
    ∃ j : ℕ, i.exam_anxiety_score = (5.0 : ℚ) + j * (0.5 : ℚ)) ∧
  ((0.0 : ℚ) ≤ i.study_efficiency ∧ i.study_efficiency ≤ (5.75 : ℚ)) ∧
  ((0.0 : ℚ) ≤ i.screen_time_penalty ∧ i.screen_time_penalty ≤ (90.0 : ℚ)) ∧
  i.study_environment ∈ ["Quiet Room", "Library", "Co-Learning Group", "Dorm", "Cafe"] ∧
  i.access_to_tutoring ∈ ["Yes", "No"]

/-- The initial control values (`value=` arguments, and the first option
of each selectbox). -/
def defaultInputs : PredictionInputs :=
  ⟨7.0, 3, 5.0, 5.0, 6, 7.0, 2.0, 10.0, "Quiet Room", "Yes"⟩

/-- A dataframe row: column name paired with cell value, in column order. -/
abbrev Row := List (String × Value)

/-- A dataframe: a list of rows. -/
abbrev DataFrame := List Row

/-- The loaded artifact's inference operation (`model.predict`): one
integer class label per row of the input dataframe. -/
abbrev ModelFn := DataFrame → List ℤ

/-- The single row assembled on submit (`app.py` lines 227-238), columns
in source order, each holding the current value of its control. -/
def input_row (i : PredictionInputs) : Row :=
  [("sleep_hours", .q i.sleep_hours),
   ("exercise_frequency", .z i.exercise_frequency),
   ("stress_level", .q i.stress_level),
   ("screen_time", .q i.screen_time),
   ("study_environment", .s i.study_environment),
   ("access_to_tutoring", .s i.access_to_tutoring),
   ("motivation_level", .z i.motivation_level),
   ("exam_anxiety_score", .q i.exam_anxiety_score),
   ("study_efficiency", .q i.study_efficiency),
   ("screen_time_penalty", .q i.screen_time_penalty)]

/-- `input_data = pd.DataFrame([{...}])`: the one-row dataframe. -/
def input_data (i : PredictionInputs) : DataFrame := [input_row i]

/-- Looking a column up in a row (by name, first match). -/
def rowLookup (r : Row) (c : String) : Option Value :=
  (r.find? (fun p => p.1 == c)).map Prod.snd

/-- Modelled from the spec: the Model Artifact (the serialized classifier
file, which is not under `src/`) expects a one-row table with the ten
named columns of the spec's section 3 table, in table order. -/
def expectedColumns : List String :=
  ["sleep_hours", "exercise_frequency", "stress_level", "screen_time",
   "study_environment", "access_to_tutoring", "motivation_level",
   "exam_anxiety_score", "study_efficiency", "screen_time_penalty"]

/-- The `feature_info` dict of the Glossary view (`app.py` lines 102-132),
as an association list in insertion order. -/
def feature_info : List (String × String) :=
  [("sleep_hours",
    "Average number of hours the student sleeps per day. Adequate sleep improves focus, memory, and academic performance."),
   ("exercise_frequency",
    "Number of times the student exercises per week. Regular exercise is linked to better mental health and concentration."),
   ("stress_level",
    "Measures the student's stress level on a scale from 1 to 10. Higher stress often negatively impacts academic outcomes."),
   ("screen_time",
    "Total daily screen time in hours. Excessive screen usage may reduce study time and sleep quality."),
   ("study_environment",
    "The environment where the student usually studies (e.g., quiet room, library). A better environment enhances productivity."),
   ("access_to_tutoring",
    "Indicates whether the student has access to additional tutoring or academic support."),
   ("motivation_level",
    "Represents how motivated the student is to study, rated from 1 to 10. Higher motivation usually leads to better performance."),
   ("exam_anxiety_score",
    "Measures anxiety level before exams. High anxiety can reduce exam performance despite good preparation."),
   ("study_efficiency",
    "Represents how effectively the student studies within a given time. Higher values indicate better focus and learning quality."),
   ("screen_time_penalty",
    "Quantifies the negative impact of excessive screen time on academic performance.")]

/-- The two column headers of `df_features` (`app.py` lines 134-137). -/
def df_features_columns : List String := ["Feature Name", "Description"]

/-- The success message rendered after a prediction (`app.py` line 247). -/
def successMessage (label : String) : String :=
  "📊 Predicted Performance Level: **" ++ label ++ "**"

/-- What one render pass produces: the dataframes passed to
`model.predict` (in call order), the glossary table if it was rendered,
and either an uncaught exception or the optional success message. -/
structure RenderResult where
  predicts : List DataFrame
  glossaryRows : Option (List (String × String))
  outcome : Except String (Option String)

/-- One top-to-bottom run of the page branches of `app.py` (lines
30-247): `page` is the radio selection, `i` the current control values,
`clicked` whether the submit button was pressed this pass, `imagePresent`
whether the Overview image file exists on disk, `model` the loaded
artifact. `Image.open` on a missing file raises; the raise is uncaught. -/
def runScript (imagePresent : Bool) (model : ModelFn) (page : String)
    (i : PredictionInputs) (clicked : Bool) : RenderResult :=
  if page = "Project Overview" then
    if imagePresent then ⟨[], none, .ok none⟩
    else ⟨[], none, .error "FileNotFoundError: dom-fou-YRMWVcdyhmI-unsplash.jpg"⟩
  else if page = "Feature Explanation" then
    ⟨[], some feature_info, .ok none⟩
  else if page = "Prediction" then
    if clicked then
      let df := input_data i
      match (model df)[0]? with
      | some c => ⟨[df], none, .ok (some (successMessage (predictionLabel c)))⟩
      | none => ⟨[df], none, .error "IndexError: index 0 is out of bounds"⟩
    else ⟨[], none, .ok none⟩
  else ⟨[], none, .ok none⟩

/-- The radio options of the sidebar (`app.py` lines 22-25). -/
def navOptions : List String :=
  ["Project Overview", "Feature Explanation", "Prediction"]

/-- `st.sidebar.radio` preselects the first option, so the initial
selection is the head of the option list. -/
def radioDefault (options : List String) : Option String := options.head?

/-- Which page branch a selection takes (the if/elif chain at `app.py`
lines 30, 91 and 144): the index of the first matching test, if any. -/
def branchOf (page : String) : Option ℕ :=
  if page = "Project Overview" then some 0
  else if page = "Feature Explanation" then some 1
  else if page = "Prediction" then some 2
  else none

/-- The per-session widget state: widget label paired with stored value.
The spec scopes widget values to one session; their persistence across
render passes is modelled from the spec. -/
abbrev WidgetStore := List (String × Value)

/-- The stored value of a widget, if any. -/
def lookupW (s : WidgetStore) (k : String) : Option Value :=
  (s.find? (fun p => p.1 == k)).map Prod.snd

/-- Rendering one widget: an already-stored value is kept and shown;
otherwise the widget's initial value is stored and shown. -/
def registerWidget (s : WidgetStore) (k : String) (d : Value) : Value × WidgetStore :=
  match lookupW s k with
  | some v => (v, s)
  | none => (d, s ++ [(k, d)])

/-- The ten Prediction-view controls in source render order, with their
initial values (`app.py` lines 152-223). -/
def predictionWidgetDefaults : List (String × Value) :=
  [(sleep_hours_w.label, .q sleep_hours_w.default),
   (exercise_frequency_w.label, .z exercise_frequency_w.default),
   (stress_level_w.label, .q stress_level_w.default),
   (screen_time_w.label, .q screen_time_w.default),
   (motivation_level_w.label, .z motivation_level_w.default),
   (exam_anxiety_score_w.label, .q exam_anxiety_score_w.default),
   (study_efficiency_w.label, .q study_efficiency_w.default),
   (screen_time_penalty_w.label, .q screen_time_penalty_w.default),
   (study_environment_w.label, .s (study_environment_w.defaultChoice.getD "")),
   (access_to_tutoring_w.label, .s (access_to_tutoring_w.defaultChoice.getD ""))]

/-- Rendering the Prediction view registers each of its widgets in order. -/
def renderPredictionWidgets (s : WidgetStore) : WidgetStore :=
  predictionWidgetDefaults.foldl (fun st kd => (registerWidget st kd.1 kd.2).2) s

/-- The widget-store effect of one render pass: only the Prediction
branch contains widget calls (the Overview and Glossary branches render
none, `app.py` lines 30-139). -/
def renderPageStore (s : WidgetStore) (page : String) : WidgetStore :=
  if page = "Project Overview" then s
  else if page = "Feature Explanation" then s
  else if page = "Prediction" then renderPredictionWidgets s
  else s

/-- A sequence of render passes driven by navigation selections, within
one session. -/
def renderSeq (s : WidgetStore) (pages : List String) : WidgetStore :=
  pages.foldl renderPageStore s

/-- The value a control shows: its stored value if any, else its initial
value. -/
def displayedValue (s : WidgetStore) (k : String) (d : Value) : Value :=
  (lookupW s k).getD d

/-- The fixed hard-coded artifact path (`app.py` line 9). -/
def modelPath : String := "exam_score_calss_model.pkl"

/-- A file system mapping paths to loadable artifacts. -/
abbrev ArtifactFS := String → Option ModelFn

/-- `joblib.load(path)`: the artifact at `path`, or a raised error. -/
def joblib_load (fs : ArtifactFS) (path : String) : Except String ModelFn :=
  match fs path with
  | some m => .ok m
  | none => .error ("FileNotFoundError: " ++ path)

/-- Process start (`app.py` line 9): the one `joblib.load` call of the
script, recording the list of paths read. An exception here aborts the
script before any view can render. -/
def loadModelAtStart (fs : ArtifactFS) : List String × Except String ModelFn :=
  ([modelPath], joblib_load fs modelPath)

/-- A request served from process start: load the model, then render one
pass; a load failure propagates and nothing is served. -/
def serve (fs : ArtifactFS) (imagePresent : Bool) (page : String)
    (i : PredictionInputs) (clicked : Bool) : Except String RenderResult :=
  match (loadModelAtStart fs).2 with
  | .error e => .error e
  | .ok m => .ok (runScript imagePresent m page i clicked)

end StudentPerf

namespace StudentPerf

/-- C1 counterexample: at the concrete model output 0, the displayed label
is the literal "❌ At Risk", not the bare string "At Risk" claimed. -/
theorem class_mapping_label_not_bare :
    predictionLabel 0 = "❌ At Risk" ∧ predictionLabel 0 ≠ "At Risk" := by
  constructor
  · rfl
  · decide

/-- C1 (amended): the class-to-label mapping is total and stable: 0 maps to
"❌ At Risk", 1 to "⚠️ Average", 2 to "✅ High Performer", and every other
integer maps to the literal fallback "Unknown". -/
theorem class_mapping_total_stable (n : ℤ) :
    predictionLabel n =
      if n = 0 then "❌ At Risk"
      else if n = 1 then "⚠️ Average"
      else if n = 2 then "✅ High Performer"
      else "Unknown" := by
  by_cases h0 : n = 0
  · subst h0; rfl
  · by_cases h1 : n = 1
    · subst h1; rfl
    · by_cases h2 : n = 2
      · subst h2; rfl
      · have e0 : ((0 : ℤ) == n) = false := beq_eq_false_iff_ne.mpr (fun h => h0 h.symm)
        have e1 : ((1 : ℤ) == n) = false := beq_eq_false_iff_ne.mpr (fun h => h1 h.symm)
        have e2 : ((2 : ℤ) == n) = false := beq_eq_false_iff_ne.mpr (fun h => h2 h.symm)
        simp [predictionLabel, dictGet, class_mapping, List.find?, e0, e1, e2, h0, h1, h2]

/-- Any value a float slider can produce lies between its bounds, provided
the step is nonnegative. -/
theorem sliderQ_producible_bounds (w : SliderQ) (hstep : 0 ≤ w.step) {v : ℚ}
    (hv : w.Producible v) : w.mn ≤ v ∧ v ≤ w.mx := by
  obtain ⟨⟨k, rfl⟩, hmx⟩ := hv
  refine ⟨?_, hmx⟩
  unfold SliderQ.valueAt
  have h0 : (0 : ℚ) ≤ (k : ℚ) * w.step := mul_nonneg (by positivity) hstep
  linarith

/-- Any value an integer slider can produce lies between its bounds. -/
theorem sliderZ_producible_bounds (w : SliderZ) {v : ℤ}
    (hv : w.Producible v) : w.mn ≤ v ∧ v ≤ w.mx := by
  obtain ⟨⟨k, rfl⟩, hmx⟩ := hv
  omega

/-- Any value a number input can produce lies between its bounds, provided
`mn ≤ mx`. -/
theorem numberInput_producible_bounds (w : NumberInput) (h : w.mn ≤ w.mx)
    {v : ℚ} (hv : w.Producible v) : w.mn ≤ v ∧ v ≤ w.mx := by
  obtain ⟨t, rfl⟩ := hv
  exact ⟨le_max_left _ _, max_le h (min_le_right _ _)⟩

/-- C4: every combination of values the ten input controls can produce lies
within the declared domains of the spec's section 3 table, so every
attribute value presented to the model is in-domain. -/
theorem producible_inputs_in_domain (i : PredictionInputs)
    (h : ProducibleInputs i) : InDomainInputs i := by
  obtain ⟨h1, h2, h3, h4, h5, h6, h7, h8, h9, h10⟩ := h
  have b1 : (4.0 : ℚ) ≤ i.sleep_hours ∧ i.sleep_hours ≤ (12.0 : ℚ) :=
    sliderQ_producible_bounds sleep_hours_w (by norm_num [sleep_hours_w]) h1
  have b2 : (0 : ℤ) ≤ i.exercise_frequency ∧ i.exercise_frequency ≤ (7 : ℤ) :=
    sliderZ_producible_bounds exercise_frequency_w h2
  have b3 : (1.0 : ℚ) ≤ i.stress_level ∧ i.stress_level ≤ (10.0 : ℚ) :=
    sliderQ_producible_bounds stress_level_w (by norm_num [stress_level_w]) h3
  have b4 : (0.3 : ℚ) ≤ i.screen_time ∧ i.screen_time ≤ (21.0 : ℚ) :=
    sliderQ_producible_bounds screen_time_w (by norm_num [screen_time_w]) h4
  have b5 : (1 : ℤ) ≤ i.motivation_level ∧ i.motivation_level ≤ (10 : ℤ) :=
    sliderZ_producible_bounds motivation_level_w h5
  have b6 : (5.0 : ℚ) ≤ i.exam_anxiety_score ∧ i.exam_anxiety_score ≤ (10.0 : ℚ) :=
    sliderQ_producible_bounds exam_anxiety_score_w (by norm_num [exam_anxiety_score_w]) h6
  have b7 : (0.0 : ℚ) ≤ i.study_efficiency ∧ i.study_efficiency ≤ (5.75 : ℚ) :=
    numberInput_producible_bounds study_efficiency_w (by norm_num [study_efficiency_w]) h7
  have b8 : (0.0 : ℚ) ≤ i.screen_time_penalty ∧ i.screen_time_penalty ≤ (90.0 : ℚ) :=
    numberInput_producible_bounds screen_time_penalty_w (by norm_num [screen_time_penalty_w]) h8
  obtain ⟨⟨k6, hv6⟩, _⟩ := h6
  have hstep6 : i.exam_anxiety_score = (5.0 : ℚ) + k6 * (0.5 : ℚ) := hv6
  have henv : i.study_environment ∈
      (["Quiet Room", "Library", "Co-Learning Group", "Dorm", "Cafe"] : List String) := h9
  have htut : i.access_to_tutoring ∈ (["Yes", "No"] : List String) := h10
  unfold InDomainInputs
  exact ⟨b1, b2, b3, b4, b5, ⟨b6.1, b6.2, k6, hstep6⟩, b7, b8, henv, htut⟩

/-- C4 witness: the default control positions are producible and in-domain. -/
theorem producible_inputs_in_domain_default :
    ProducibleInputs defaultInputs ∧ InDomainInputs defaultInputs := by
  have h : ProducibleInputs defaultInputs :=
    ⟨⟨⟨30, by norm_num [defaultInputs, sleep_hours_w, SliderQ.valueAt]⟩,
        by norm_num [defaultInputs, sleep_hours_w]⟩,
      ⟨⟨3, by decide⟩, by decide⟩,
      ⟨⟨40, by norm_num [defaultInputs, stress_level_w, SliderQ.valueAt]⟩,
        by norm_num [defaultInputs, stress_level_w]⟩,
      ⟨⟨47, by norm_num [defaultInputs, screen_time_w, SliderQ.valueAt]⟩,
        by norm_num [defaultInputs, screen_time_w]⟩,
      ⟨⟨5, by decide⟩, by decide⟩,
      ⟨⟨4, by norm_num [defaultInputs, exam_anxiety_score_w, SliderQ.valueAt]⟩,
        by norm_num [defaultInputs, exam_anxiety_score_w]⟩,
      ⟨2.0, by norm_num [defaultInputs, study_efficiency_w, NumberInput.clamp]⟩,
      ⟨10.0, by norm_num [defaultInputs, screen_time_penalty_w, NumberInput.clamp]⟩,
      (show defaultInputs.study_environment ∈ study_environment_w.options by decide),
      (show defaultInputs.access_to_tutoring ∈ access_to_tutoring_w.options by decide)⟩
  exact ⟨h, producible_inputs_in_domain defaultInputs h⟩

/-- C2: with the Overview image file absent, the Overview render pass
aborts with an uncaught FileNotFoundError instead of rendering the
remaining content without the image. -/
theorem overview_missing_image_crashes :
    (runScript false (fun _ => [0]) "Project Overview" defaultInputs false).outcome =
      .error "FileNotFoundError: dom-fou-YRMWVcdyhmI-unsplash.jpg" := by
  simp [runScript]

/-- C5: inference is invoked only on an explicit submit: render passes on
the other two views, and Prediction passes without a click, invoke
`model.predict` zero times; a Prediction pass with a click invokes it
exactly once, on the assembled record. -/
theorem predict_only_on_submit (imagePresent : Bool) (model : ModelFn)
    (i : PredictionInputs) (clicked : Bool) :
    (runScript imagePresent model "Project Overview" i clicked).predicts = [] ∧
    (runScript imagePresent model "Feature Explanation" i clicked).predicts = [] ∧
    (runScript imagePresent model "Prediction" i false).predicts = [] ∧
    (runScript imagePresent model "Prediction" i true).predicts = [input_data i] ∧
    (runScript imagePresent model "Prediction" i true).predicts.length = 1 := by
  refine ⟨?_, ?_, ?_, ?_, ?_⟩
  · cases imagePresent <;> simp [runScript]
  · simp [runScript]
  · simp [runScript]
  · cases h : (model (input_data i))[0]? <;> simp [runScript, h]
  · cases h : (model (input_data i))[0]? <;> simp [runScript, h]

/-- C6: on submit exactly one single-row record is assembled; its columns
are exactly the ten expected attribute names, in order, each cell holding
the current value of its control, and that record is what is passed to
inference. -/
theorem submit_record_shape (i : PredictionInputs) :
    (input_data i).length = 1 ∧
    (input_row i).map Prod.fst = expectedColumns ∧
    rowLookup (input_row i) "sleep_hours" = some (.q i.sleep_hours) ∧
    rowLookup (input_row i) "exercise_frequency" = some (.z i.exercise_frequency) ∧
    rowLookup (input_row i) "stress_level" = some (.q i.stress_level) ∧
    rowLookup (input_row i) "screen_time" = some (.q i.screen_time) ∧
    rowLookup (input_row i) "study_environment" = some (.s i.study_environment) ∧
    rowLookup (input_row i) "access_to_tutoring" = some (.s i.access_to_tutoring) ∧
    rowLookup (input_row i) "motivation_level" = some (.z i.motivation_level) ∧
    rowLookup (input_row i) "exam_anxiety_score" = some (.q i.exam_anxiety_score) ∧
    rowLookup (input_row i) "study_efficiency" = some (.q i.study_efficiency) ∧
    rowLookup (input_row i) "screen_time_penalty" = some (.q i.screen_time_penalty) ∧
    ∀ imagePresent model,
      (runScript imagePresent model "Prediction" i true).predicts = [input_data i] := by
  refine ⟨rfl, rfl, rfl, rfl, rfl, rfl, rfl, rfl, rfl, rfl, rfl, rfl, ?_⟩
  intro imagePresent model
  cases h : (model (input_data i))[0]? <;> simp [runScript, h]

/-- C8: the Glossary view renders the fixed two-column table of exactly
ten rows, one per documented feature name, in one fixed order,
independently of the Prediction view's state. -/
theorem glossary_ten_fixed_rows (imagePresent : Bool) (model : ModelFn)
    (i i2 : PredictionInputs) (c c2 : Bool) :
    feature_info.length = 10 ∧
    feature_info.map Prod.fst = expectedColumns ∧
    df_features_columns.length = 2 ∧
    (runScript imagePresent model "Feature Explanation" i c).glossaryRows =
      some feature_info ∧
    runScript imagePresent model "Feature Explanation" i c =
      runScript imagePresent model "Feature Explanation" i2 c2 := by
  refine ⟨rfl, rfl, rfl, ?_, ?_⟩ <;> simp [runScript]

/-- C9: the Navigation Router's option list is exactly the three page
names with the initial selection "Project Overview"; each selectable page
takes exactly one branch of the dispatch chain (the three options take
the three distinct branches, and no other selection takes any). -/
theorem navigation_router_spec :
    radioDefault navOptions = some "Project Overview" ∧
    navOptions.map branchOf = [some 0, some 1, some 2] ∧
    ∀ p, p ∉ navOptions → branchOf p = none := by
  refine ⟨rfl, rfl, ?_⟩
  intro p hp
  have h1 : ¬p = "Project Overview" := fun h => hp (by simp [navOptions, h])
  have h2 : ¬p = "Feature Explanation" := fun h => hp (by simp [navOptions, h])
  have h3 : ¬p = "Prediction" := fun h => hp (by simp [navOptions, h])
  simp [branchOf, h1, h2, h3]

/-- C9 witness: a selection outside the option list takes no branch. -/
theorem navigation_router_spec_unknown :
    "Settings" ∉ navOptions ∧ branchOf "Settings" = none := by
  have hm : "Settings" ∉ navOptions := by decide
  exact ⟨hm, navigation_router_spec.2.2 "Settings" hm⟩

/-- C10: the submit handler passes exactly one row to inference and uses
only element 0 of the returned sequence, unguarded; when the artifact
returns at least one label for the one-row input, the indexing succeeds
and the rendered message is determined by that first element alone. -/
theorem submit_uses_first_label (imagePresent : Bool) (model : ModelFn)
    (i : PredictionInputs) (h : 1 ≤ (model (input_data i)).length) :
    ∃ c, (model (input_data i))[0]? = some c ∧
      (runScript imagePresent model "Prediction" i true).predicts = [input_data i] ∧
      (runScript imagePresent model "Prediction" i true).outcome =
        .ok (some (successMessage (predictionLabel c))) := by
  obtain ⟨c, hc⟩ : ∃ c, (model (input_data i))[0]? = some c := by
    cases hm : model (input_data i) with
    | nil => rw [hm] at h; simp at h
    | cons a t => exact ⟨a, by simp [hm]⟩
  exact ⟨c, hc, by simp [runScript, hc], by simp [runScript, hc]⟩

/-- C10 witness: an artifact returning the single label 2 at the default
inputs: the indexing succeeds and the first element fixes the message. -/
theorem submit_uses_first_label_concrete :
    1 ≤ ((fun _ : DataFrame => [(2 : ℤ)]) (input_data defaultInputs)).length ∧
    ∃ c, ((fun _ : DataFrame => [(2 : ℤ)]) (input_data defaultInputs))[0]? = some c ∧
      (runScript true (fun _ : DataFrame => [(2 : ℤ)]) "Prediction" defaultInputs
        true).predicts = [input_data defaultInputs] ∧
      (runScript true (fun _ : DataFrame => [(2 : ℤ)]) "Prediction" defaultInputs
        true).outcome = .ok (some (successMessage (predictionLabel c))) :=
  ⟨by norm_num,
    submit_uses_first_label true (fun _ => [(2 : ℤ)]) defaultInputs (by norm_num)⟩

/-- C7: the artifact is loaded exactly once at process start, from the
fixed hard-coded path, and held for the process lifetime; a missing
artifact is fatal: every request errors with the load failure, with no
fallback and no retry. -/
theorem model_load_once_fatal (fs : ArtifactFS) :
    (loadModelAtStart fs).1 = [modelPath] ∧
    (∀ m, fs modelPath = some m →
      (loadModelAtStart fs).2 = .ok m ∧
      ∀ imagePresent page i clicked,
        serve fs imagePresent page i clicked =
          .ok (runScript imagePresent m page i clicked)) ∧
    (fs modelPath = none →
      ∀ imagePresent page i clicked,
        serve fs imagePresent page i clicked =
          .error ("FileNotFoundError: " ++ modelPath)) := by
  refine ⟨rfl, ?_, ?_⟩
  · intro m hm
    refine ⟨?_, ?_⟩
    · simp [loadModelAtStart, joblib_load, hm]
    · intro imagePresent page i clicked
      simp [serve, loadModelAtStart, joblib_load, hm]
  · intro hm imagePresent page i clicked
    simp [serve, loadModelAtStart, joblib_load, hm]

/-- C7 witness: on a file system without the artifact, a prediction
request fails with the load error. -/
theorem model_load_once_fatal_missing :
    ((fun _ : String => (none : Option ModelFn)) modelPath = none) ∧
    serve (fun _ => none) true "Prediction" defaultInputs true =
      .error ("FileNotFoundError: " ++ modelPath) :=
  ⟨rfl, (model_load_once_fatal (fun _ => none)).2.2 rfl true "Prediction"
    defaultInputs true⟩

/-- Registering a widget never alters an already-stored value, of any key. -/
theorem registerWidget_preserves (s : WidgetStore) (k' : String) (d : Value)
    {k : String} {v : Value} (h : lookupW s k = some v) :
    lookupW (registerWidget s k' d).2 k = some v := by
  cases hl : lookupW s k' with
  | some w => simpa [registerWidget, hl] using h
  | none =>
    simp only [registerWidget, hl]
    unfold lookupW at h ⊢
    cases hf : s.find? (fun p => p.1 == k) with
    | none => rw [hf] at h; simp at h
    | some p =>
      rw [hf] at h
      rw [List.find?_append, hf]
      simpa using h

/-- Folding widget registrations never alters an already-stored value. -/
theorem foldRegister_preserves (l : List (String × Value)) (s : WidgetStore)
    {k : String} {v : Value} (h : lookupW s k = some v) :
    lookupW (l.foldl (fun st kd => (registerWidget st kd.1 kd.2).2) s) k = some v := by
  induction l generalizing s with
  | nil => simpa using h
  | cons a t ih =>
    simp only [List.foldl_cons]
    exact ih _ (registerWidget_preserves s a.1 a.2 h)

/-- One render pass, on any page, never alters an already-stored value. -/
theorem renderPageStore_preserves (page : String) (s : WidgetStore)
    {k : String} {v : Value} (h : lookupW s k = some v) :
    lookupW (renderPageStore s page) k = some v := by
  unfold renderPageStore
  split_ifs
  · exact h
  · exact h
  · exact foldRegister_preserves predictionWidgetDefaults s h
  · exact h

/-- C3: navigating between the three views never alters stored control
values: after any sequence of render passes within one session, a stored
value is unchanged, and it is what the control shows when the Prediction
view is revisited. -/
theorem navigation_preserves_controls (s : WidgetStore) (pages : List String)
    (_hnav : ∀ p ∈ pages, p ∈ navOptions) (k : String) (v : Value)
    (h : lookupW s k = some v) :
    lookupW (renderSeq s pages) k = some v ∧
    ∀ d, displayedValue (renderSeq s pages) k d = v := by
  have main : ∀ (ps : List String) (st : WidgetStore), lookupW st k = some v →
      lookupW (renderSeq st ps) k = some v := by
    intro ps
    induction ps with
    | nil => intro st hst; simpa [renderSeq] using hst
    | cons p t ih =>
      intro st hst
      simp only [renderSeq, List.foldl_cons] at ih ⊢
      exact ih _ (renderPageStore_preserves p st hst)
  refine ⟨main pages s h, fun d => ?_⟩
  simp [displayedValue, main pages s h]

/-- C3 witness: a stress value set to 8 survives visiting Overview,
Glossary and Prediction, and is displayed on revisit. -/
theorem navigation_preserves_controls_demo :
    (∀ p ∈ (["Project Overview", "Feature Explanation", "Prediction",
        "Project Overview"] : List String), p ∈ navOptions) ∧
    lookupW [(("Stress Level" : String), Value.q 8)] "Stress Level" =
      some (Value.q 8) ∧
    (lookupW (renderSeq [(("Stress Level" : String), Value.q 8)]
        ["Project Overview", "Feature Explanation", "Prediction",
          "Project Overview"]) "Stress Level" = some (Value.q 8) ∧
      ∀ d, displayedValue (renderSeq [(("Stress Level" : String), Value.q 8)]
        ["Project Overview", "Feature Explanation", "Prediction",
          "Project Overview"]) "Stress Level" d = Value.q 8) := by
  refine ⟨by decide, rfl, navigation_preserves_controls _ _ (by decide) _ _ rfl⟩

end StudentPerf
